import Mathlib

/-!
Verification of the `sqlmesh-open-metadata` adapter.

This file gives a shallow embedding, in Lean, of the parts of the
repository that the verified properties talk about:

* `src/sqlmesh_openlineage/datasets.py` — `snapshot_to_table_name`,
  `snapshot_to_table_fqn` and `snapshot_to_column_lineage`;
* `src/sqlmesh_openlineage/emitter.py` — the `emit_snapshot_start`,
  `emit_snapshot_complete` and `emit_snapshot_fail` methods of
  `OpenLineageEmitter`;
* `src/sqlmesh_openlineage/install.py` — `install` and `is_installed`;
* the run-correlating console (`OpenLineageConsole`), whose module is not
  part of the sources available here and is therefore modelled from the
  specification where a claim needs it.

Conventions of the embedding:

* Python strings are Lean `String`s; Python `None` becomes `Option.none`.
  Python truthiness of an optional string (`if not x`) is "`none` or the
  empty string".
* Python exceptions are made explicit: an operation that can raise is
  embedded as an `Except String`-valued term, a `try/except` block as a
  `match` on that value.  External collaborators that the code calls and
  guards (the sqlmesh lineage builder, the OpenLineage client transport,
  event construction) are passed in as `Except`-valued parameters, since
  their internals live outside this repository.
* Opaque third-party structures are represented by the observables the
  code reads from them: a sqlglot lineage node by its name, the first
  `exp.Table` found in its expression, and its `downstream` list; a
  sqlglot table expression by its `catalog`, `db` and `name` strings.
-/

/-! ## Data model -/

/-- A sqlglot `exp.Table` as observed by the code: the `catalog`, `db` and
`name` string parts (absent parts are the empty string, as in sqlglot). -/
structure SqlTable where
  catalog : String
  db : String
  name : String
deriving Repr, DecidableEq

/-- A node of the per-column lineage tree returned by
`sqlmesh.core.lineage.lineage`, as observed by
`snapshot_to_column_lineage`: its `name`, the first `exp.Table` found in
its `expression` (if any), and its `downstream` nodes. -/
inductive LNode where
  | mk (name : String) (table : Option SqlTable) (downstream : List LNode)

/-- Accessor for the `name` field of a lineage node. -/
def LNode.name : LNode → String
  | .mk n _ _ => n

/-- Accessor for the table observed in the node's expression
(`lineage_node.expression.find(exp.Table)`). -/
def LNode.table : LNode → Option SqlTable
  | .mk _ t _ => t

/-- Accessor for the `downstream` field of a lineage node. -/
def LNode.downstream : LNode → List LNode
  | .mk _ _ d => d

mutual

/-- `Node.walk` of the lineage tree: yields the node itself, then walks
each downstream node, depth first. -/
def LNode.walk : LNode → List LNode
  | .mk n t ds => .mk n t ds :: walk_list ds

/-- Walk of a list of lineage nodes, in order. -/
def walk_list : List LNode → List LNode
  | [] => []
  | d :: ds => d.walk ++ walk_list ds

end

/-- A SQLMesh model, as observed by the code: its `columns_to_types`
mapping (`none` models a missing attribute, `some []` an empty dict). -/
structure Model where
  columns_to_types : Option (List (String × String))
deriving Repr, DecidableEq

/-- A SQLMesh `QualifiedViewName`: optional catalog, optional schema name,
table name. -/
structure QualifiedViewName where
  catalog : Option String
  schema_name : Option String
  table : String
deriving Repr, DecidableEq

/-- A SQLMesh `Snapshot`, restricted to the fields the verified code
reads: `name`, `qualified_view_name`, `is_model` and `model`. -/
structure Snapshot where
  name : String
  qualified_view_name : QualifiedViewName
  is_model : Bool
  model : Option Model
deriving Repr, DecidableEq

/-- An Open-Metadata `ColumnLineage` record: the upstream column FQNs and
the downstream column FQN. -/
structure ColumnLineage where
  fromColumns : List String
  toColumn : String
deriving Repr, DecidableEq

/-! ## datasets.py -/

/-- Python `".".join(parts)` on a list of strings. -/
def join_dot : List String → String
  | [] => ""
  | [p] => p
  | p :: rest => p ++ "." ++ join_dot rest

/-- `".".join(p for p in parts if p)`: dot-join dropping falsy (empty)
components. -/
def dot_join (parts : List String) : String :=
  join_dot (parts.filter (fun p => p != ""))

/-- `snapshot_to_table_name` (datasets.py:12-16): dot-join of the
qualified view name's catalog, schema and table, dropping absent/empty
components. -/
def snapshot_to_table_name (s : Snapshot) : String :=
  dot_join [s.qualified_view_name.catalog.getD "",
            s.qualified_view_name.schema_name.getD "",
            s.qualified_view_name.table]

/-- `snapshot_to_table_fqn` (datasets.py:19-26):
`f"{namespace}.{table_name}"`. -/
def snapshot_to_table_fqn (s : Snapshot) (ns : String) : String :=
  ns ++ "." ++ snapshot_to_table_name s

/-- The catalog/db/name dot-join the loop body computes for a table found
in a lineage node (datasets.py:75-76). -/
def table_full_name (tb : SqlTable) : String :=
  dot_join [tb.catalog, tb.db, tb.name]

/-- Characters of the last dot-separated component of a name:
`cur` accumulates the component read so far, reset at every `'.'`. -/
def last_dotted_aux (cur : List Char) : List Char → List Char
  | [] => cur
  | c :: cs => if c = '.' then last_dotted_aux [] cs else last_dotted_aux (cur ++ [c]) cs

/-- `exp.to_column(name).name`: the bare (last dotted component) column
name of a lineage node's name string. -/
def bare_column_name (s : String) : String :=
  String.mk (last_dotted_aux [] s.data)

/-- The contribution of one walked lineage node to `from_columns`
(datasets.py:66-87): skip non-leaf nodes, skip nodes without a table in
their expression, and on an exact bare-name or full-path match with the
parent contribute `f"{namespace}.{parent_name}.{source_col}"`. -/
def node_from_column (parent_name ns : String) (nd : LNode) : Option String :=
  if !nd.downstream.isEmpty then
    none
  else
    match nd.table with
    | none => none
    | some tb =>
      if tb.name = parent_name ∨ table_full_name tb = parent_name then
        some (ns ++ "." ++ parent_name ++ "." ++ bare_column_name nd.name)
      else
        none

/-- The body of the inner `try` of `snapshot_to_column_lineage`
(datasets.py:59-99) for one output column: call the lineage builder
(which may raise), walk the tree collecting matching source columns, and
build a `ColumnLineage` when any were found. -/
def trace_column (lineage_fn : String → Except String LNode) (s : Snapshot)
    (parent_name ns : String) (col : String) : Except String (Option ColumnLineage) :=
  match lineage_fn col with
  | .error e => .error e
  | .ok nd =>
    let from_columns := nd.walk.filterMap (node_from_column parent_name ns)
    if from_columns.isEmpty then
      .ok none
    else
      .ok (some { fromColumns := from_columns
                  toColumn := snapshot_to_table_fqn s ns ++ "." ++ col })

/-- The `for col_name in columns.keys()` loop of
`snapshot_to_column_lineage` (datasets.py:58-103): each column is traced
under its own `except Exception: continue`, so a failing column
contributes nothing and the loop goes on. -/
def column_lineage_loop (lineage_fn : String → Except String LNode) (s : Snapshot)
    (parent_name ns : String) : List String → List ColumnLineage
  | [] => []
  | col :: rest =>
    match trace_column lineage_fn s parent_name ns col with
    | .error _ => column_lineage_loop lineage_fn s parent_name ns rest
    | .ok none => column_lineage_loop lineage_fn s parent_name ns rest
    | .ok (some cl) => cl :: column_lineage_loop lineage_fn s parent_name ns rest

/-- `snapshot_to_column_lineage` (datasets.py:29-109).  `import_lineage`
models the guarded imports of `sqlmesh.core.lineage` and `sqlglot`
(datasets.py:55-56, inside the outer `try`), `lineage_fn` the guarded
call `lineage(col_name, model, trim_selects=False)`.  The outer
`except Exception: pass` returns whatever was accumulated before the
failure, which for an import failure is the empty list.  The result is
`Except`-valued so that an uncaught exception would show up as
`.error`. -/
def snapshot_to_column_lineage (s : Snapshot) (parent_name ns : String)
    (import_lineage : Except String Unit)
    (lineage_fn : String → Except String LNode) : Except String (List ColumnLineage) :=
  if !s.is_model then
    .ok []
  else
    match s.model with
    | none => .ok []
    | some m =>
      match m.columns_to_types with
      | none => .ok []
      | some cols =>
        if cols.isEmpty then
          .ok []
        else
          match import_lineage with
          | .error _ => .ok []
          | .ok _ =>
            .ok (column_lineage_loop lineage_fn s parent_name ns (cols.map Prod.fst))

/-! ## Theorems: C1 -/

/-- Claim C1: for every snapshot whose qualified view identity decomposes
into catalog `C`, schema `S`, table `T`, `snapshot_to_table_name` is the
dot-join dropping empty components — `S.T` when the catalog is absent and
`C.S.T` when present — and `snapshot_to_table_fqn` is always
`namespace ++ "." ++` that name. -/
theorem snapshot_table_name_fqn_spec (s : Snapshot) (ns : String) :
    snapshot_to_table_fqn s ns = ns ++ "." ++ snapshot_to_table_name s
    ∧ (∀ S, (s.qualified_view_name.catalog = none ∨ s.qualified_view_name.catalog = some "") →
        s.qualified_view_name.schema_name = some S → S ≠ "" →
        s.qualified_view_name.table ≠ "" →
        snapshot_to_table_name s = S ++ "." ++ s.qualified_view_name.table)
    ∧ (∀ C S, s.qualified_view_name.catalog = some C → C ≠ "" →
        s.qualified_view_name.schema_name = some S → S ≠ "" →
        s.qualified_view_name.table ≠ "" →
        snapshot_to_table_name s = C ++ "." ++ S ++ "." ++ s.qualified_view_name.table) := by
  refine ⟨rfl, ?_, ?_⟩
  · rintro S hc hs hS hT
    have hS' : (S != "") = true := by simpa using hS
    have hT' : (s.qualified_view_name.table != "") = true := by simpa using hT
    rcases hc with hc | hc <;>
      simp [snapshot_to_table_name, dot_join, hc, hs, List.filter, hS', hT', join_dot]
  · rintro C S hc hC hs hS hT
    have hC' : (C != "") = true := by simpa using hC
    have hS' : (S != "") = true := by simpa using hS
    have hT' : (s.qualified_view_name.table != "") = true := by simpa using hT
    simp [snapshot_to_table_name, dot_join, hc, hs, List.filter, hC', hS', hT', join_dot,
      String.append_assoc]

/-- Concrete instantiation of the C1 theorem: a snapshot with no catalog
yields `schema.table`, one with a catalog yields `catalog.schema.table`,
and the FQN prefixes the namespace. -/
theorem snapshot_table_name_fqn_spec_witness :
    snapshot_to_table_name ⟨"m", ⟨none, some "sch", "tbl"⟩, true, none⟩ = "sch" ++ "." ++ "tbl"
    ∧ snapshot_to_table_name ⟨"m", ⟨some "cat", some "sch", "tbl"⟩, true, none⟩
        = "cat" ++ "." ++ "sch" ++ "." ++ "tbl"
    ∧ snapshot_to_table_fqn ⟨"m", ⟨none, some "sch", "tbl"⟩, true, none⟩ "ns"
        = "ns" ++ "." ++ snapshot_to_table_name ⟨"m", ⟨none, some "sch", "tbl"⟩, true, none⟩ := by
  refine ⟨?_, ?_, ?_⟩
  · exact (snapshot_table_name_fqn_spec ⟨"m", ⟨none, some "sch", "tbl"⟩, true, none⟩ "ns").2.1
      "sch" (Or.inl rfl) rfl (by decide) (by decide)
  · exact (snapshot_table_name_fqn_spec ⟨"m", ⟨some "cat", some "sch", "tbl"⟩, true, none⟩ "ns").2.2
      "cat" "sch" rfl (by decide) rfl (by decide) (by decide)
  · exact (snapshot_table_name_fqn_spec ⟨"m", ⟨none, some "sch", "tbl"⟩, true, none⟩ "ns").1

/-! ## Helper lemmas about the column-lineage extractor -/

/-- Shape of a successful node contribution: it is always the namespace,
the parent name and the bare source-column name, dot-separated. -/
theorem node_from_column_shape (parent_name ns : String) (nd : LNode) (fc : String)
    (h : node_from_column parent_name ns nd = some fc) :
    fc = ns ++ "." ++ parent_name ++ "." ++ bare_column_name nd.name := by
  unfold node_from_column at h
  split at h
  · exact absurd h (by simp)
  · split at h
    · exact absurd h (by simp)
    · split at h
      · exact (Option.some.inj h).symm
      · exact absurd h (by simp)

/-- A node contributes exactly when it is a leaf and carries a table whose
bare name or full dot-joined name equals the parent exactly. -/
theorem node_from_column_isSome_iff (parent_name ns : String) (nd : LNode) :
    (node_from_column parent_name ns nd).isSome ↔
      nd.downstream = [] ∧ ∃ tb, nd.table = some tb ∧
        (tb.name = parent_name ∨ table_full_name tb = parent_name) := by
  cases hds : nd.downstream with
  | cons a l => simp [node_from_column, hds]
  | nil =>
    cases ht : nd.table with
    | none => simp [node_from_column, hds, ht]
    | some tb =>
      by_cases hm : tb.name = parent_name ∨ table_full_name tb = parent_name <;>
        simp [node_from_column, hds, ht, hm]

/-- The per-column loop collects exactly the successfully traced columns:
a column whose trace raises or matches nothing contributes no edge, and
the other columns' edges are unaffected. -/
theorem column_lineage_loop_eq_filterMap (lineage_fn : String → Except String LNode)
    (s : Snapshot) (parent_name ns : String) (cols : List String) :
    column_lineage_loop lineage_fn s parent_name ns cols =
      cols.filterMap (fun c =>
        match trace_column lineage_fn s parent_name ns c with
        | .ok (some cl) => some cl
        | _ => none) := by
  induction cols with
  | nil => rfl
  | cons c rest ih =>
    cases h : trace_column lineage_fn s parent_name ns c with
    | error e => simp [column_lineage_loop, h, List.filterMap_cons, ih]
    | ok o => cases o <;> simp [column_lineage_loop, h, List.filterMap_cons, ih]

/-- Every edge produced by the loop has a non-empty source list whose
elements are rooted at `namespace.parent.`, and targets a declared output
column of the snapshot. -/
theorem mem_column_lineage_loop (lineage_fn : String → Except String LNode)
    (s : Snapshot) (parent_name ns : String) (cols : List String) (cl : ColumnLineage)
    (h : cl ∈ column_lineage_loop lineage_fn s parent_name ns cols) :
    cl.fromColumns ≠ []
    ∧ (∀ fc ∈ cl.fromColumns, ∃ rest, fc = ns ++ "." ++ parent_name ++ "." ++ rest)
    ∧ ∃ col ∈ cols, cl.toColumn = snapshot_to_table_fqn s ns ++ "." ++ col := by
  induction cols with
  | nil => simp [column_lineage_loop] at h
  | cons c rest ih =>
    have main : ∀ cl', trace_column lineage_fn s parent_name ns c = .ok (some cl') → cl = cl' →
        cl.fromColumns ≠ []
        ∧ (∀ fc ∈ cl.fromColumns, ∃ r, fc = ns ++ "." ++ parent_name ++ "." ++ r)
        ∧ ∃ col ∈ c :: rest, cl.toColumn = snapshot_to_table_fqn s ns ++ "." ++ col := by
      intro cl' htr hcl
      subst hcl
      unfold trace_column at htr
      cases hlf : lineage_fn c with
      | error e => simp [hlf] at htr
      | ok nd =>
        rw [hlf] at htr
        simp only at htr
        split at htr
        · exact absurd htr (by simp)
        · rename_i hne
          have hcl' := Option.some.inj (Except.ok.inj htr)
          refine ⟨?_, ?_, ?_⟩
          · rw [← hcl']
            simpa [List.isEmpty_iff] using hne
          · intro fc hfc
            rw [← hcl'] at hfc
            simp only at hfc
            obtain ⟨nd', _, hnd'⟩ := List.mem_filterMap.mp hfc
            exact ⟨bare_column_name nd'.name, node_from_column_shape _ _ _ _ hnd'⟩
          · exact ⟨c, by simp, by rw [← hcl']⟩
    unfold column_lineage_loop at h
    cases htr : trace_column lineage_fn s parent_name ns c with
    | error e =>
      rw [htr] at h
      obtain ⟨h1, h2, col, hcol, h3⟩ := ih h
      exact ⟨h1, h2, col, List.mem_cons_of_mem _ hcol, h3⟩
    | ok o =>
      rw [htr] at h
      cases o with
      | none =>
        obtain ⟨h1, h2, col, hcol, h3⟩ := ih h
        exact ⟨h1, h2, col, List.mem_cons_of_mem _ hcol, h3⟩
      | some cl' =>
        rcases List.mem_cons.mp h with hcl | hcl
        · exact main cl' htr hcl
        · obtain ⟨h1, h2, col, hcol, h3⟩ := ih hcl
          exact ⟨h1, h2, col, List.mem_cons_of_mem _ hcol, h3⟩

/-! ## Theorems: C2 -/

/-- Claim C2: in `snapshot_to_column_lineage`, a walked node contributes a
`fromColumn` entry if and only if it is a leaf (no downstream node) and
either its bare table name or its fully dot-joined catalog.schema.table
name equals the candidate parent string exactly (String equality, so
case-sensitive with no normalization); on a match the contributed entry is
exactly `namespace ++ "." ++ parent_name ++ "." ++` the source column's
bare name. -/
theorem node_from_column_spec (parent_name ns : String) (nd : LNode) :
    ((node_from_column parent_name ns nd).isSome ↔
      nd.downstream = [] ∧ ∃ tb, nd.table = some tb ∧
        (tb.name = parent_name ∨ table_full_name tb = parent_name))
    ∧ (∀ fc, node_from_column parent_name ns nd = some fc →
        fc = ns ++ "." ++ parent_name ++ "." ++ bare_column_name nd.name) :=
  ⟨node_from_column_isSome_iff parent_name ns nd,
   fun fc h => node_from_column_shape parent_name ns nd fc h⟩

/-- Concrete instantiation of the C2 theorem: a leaf node over table
`orders` matched against parent `orders` contributes
`ns.orders.amount`, while the same node matched against the
differing-case parent `Orders` contributes nothing. -/
theorem node_from_column_spec_witness :
    "ns.orders.amount" = "ns" ++ "." ++ "orders" ++ "." ++
      bare_column_name (LNode.mk "orders.amount" (some ⟨"", "", "orders"⟩) []).name
    ∧ node_from_column "Orders" "ns" (LNode.mk "orders.amount" (some ⟨"", "", "orders"⟩) [])
        = none :=
  ⟨(node_from_column_spec "orders" "ns"
      (LNode.mk "orders.amount" (some ⟨"", "", "orders"⟩) [])).2
      "ns.orders.amount" (by decide),
   by
    have h := (node_from_column_spec "Orders" "ns"
      (LNode.mk "orders.amount" (some ⟨"", "", "orders"⟩) [])).1
    have hn : ¬ (node_from_column "Orders" "ns"
        (LNode.mk "orders.amount" (some ⟨"", "", "orders"⟩) [])).isSome := by
      rw [h]
      rintro ⟨-, tb, htb, hm⟩
      cases Option.some.inj htb
      revert hm
      decide
    exact Option.not_isSome_iff_eq_none.mp hn⟩

/-! ## Theorems: C3 -/

/-- Claim C3: `snapshot_to_column_lineage` never raises — for every
snapshot, parent name, namespace, guarded-import outcome and lineage
builder it returns `.ok` — and when the model has columns to trace, the
result keeps exactly the edges of the successfully traced columns: a
column whose trace raises contributes nothing while the other columns'
edges are unaffected, degrading to the empty list when nothing can be
traced. -/
theorem snapshot_to_column_lineage_never_raises (s : Snapshot) (parent_name ns : String)
    (import_lineage : Except String Unit) (lineage_fn : String → Except String LNode) :
    (∃ edges, snapshot_to_column_lineage s parent_name ns import_lineage lineage_fn = .ok edges)
    ∧ (∀ m cols, s.is_model = true → s.model = some m → m.columns_to_types = some cols →
        cols ≠ [] → import_lineage = .ok () →
        snapshot_to_column_lineage s parent_name ns import_lineage lineage_fn =
          .ok ((cols.map Prod.fst).filterMap (fun c =>
            match trace_column lineage_fn s parent_name ns c with
            | .ok (some cl) => some cl
            | _ => none))) := by
  constructor
  · cases hM : s.is_model with
    | false => exact ⟨[], by simp [snapshot_to_column_lineage, hM]⟩
    | true =>
      cases hmod : s.model with
      | none => exact ⟨[], by simp [snapshot_to_column_lineage, hM, hmod]⟩
      | some m =>
        cases hc : m.columns_to_types with
        | none => exact ⟨[], by simp [snapshot_to_column_lineage, hM, hmod, hc]⟩
        | some cols =>
          by_cases he : cols.isEmpty
          · exact ⟨[], by simp [snapshot_to_column_lineage, hM, hmod, hc, he]⟩
          · cases himp : import_lineage with
            | error e =>
              exact ⟨[], by simp [snapshot_to_column_lineage, hM, hmod, hc, he, himp]⟩
            | ok u =>
              exact ⟨column_lineage_loop lineage_fn s parent_name ns (cols.map Prod.fst),
                by simp [snapshot_to_column_lineage, hM, hmod, hc, he, himp]⟩
  · intro m cols hm hmod hcols hne himp
    have hne' : cols.isEmpty = false := by simpa [List.isEmpty_iff] using hne
    simp only [snapshot_to_column_lineage, hm, hmod, hcols, hne', himp,
      Bool.not_true, Bool.false_eq_true, if_false]
    rw [column_lineage_loop_eq_filterMap]

/-- Concrete instantiation of the C3 theorem: a model with two columns
where tracing the first raises and the second matches a parent leaf
yields exactly the second column's edge, with no exception. -/
theorem snapshot_to_column_lineage_never_raises_witness :
    snapshot_to_column_lineage
      ⟨"m", ⟨none, some "sch", "sales"⟩, true, some ⟨some [("bad", "int"), ("total", "int")]⟩⟩
      "orders" "ns" (.ok ())
      (fun c => if c = "total"
        then .ok (LNode.mk "orders.amount" (some ⟨"", "", "orders"⟩) [])
        else .error "parse failure")
      = .ok [{ fromColumns := ["ns.orders.amount"], toColumn := "ns.sch.sales.total" }] := by
  have h := (snapshot_to_column_lineage_never_raises
    ⟨"m", ⟨none, some "sch", "sales"⟩, true, some ⟨some [("bad", "int"), ("total", "int")]⟩⟩
    "orders" "ns" (.ok ())
    (fun c => if c = "total"
      then .ok (LNode.mk "orders.amount" (some ⟨"", "", "orders"⟩) [])
      else .error "parse failure")).2
    ⟨some [("bad", "int"), ("total", "int")]⟩ [("bad", "int"), ("total", "int")]
    rfl rfl rfl (by decide) rfl
  rw [h]
  rfl

/-! ## Theorems: C6 -/

/-- Claim C6: `snapshot_to_column_lineage` returns the empty list, with no
exception, whenever the snapshot is not a model, has no model object, or
the model declares no columns (`columns_to_types` absent or empty), for
every parent name, namespace, import outcome and lineage builder. -/
theorem snapshot_to_column_lineage_empty_cases (s : Snapshot) (parent_name ns : String)
    (import_lineage : Except String Unit) (lineage_fn : String → Except String LNode) :
    (s.is_model = false →
      snapshot_to_column_lineage s parent_name ns import_lineage lineage_fn = .ok [])
    ∧ (s.model = none →
      snapshot_to_column_lineage s parent_name ns import_lineage lineage_fn = .ok [])
    ∧ (∀ m, s.model = some m →
        (m.columns_to_types = none ∨ m.columns_to_types = some []) →
        snapshot_to_column_lineage s parent_name ns import_lineage lineage_fn = .ok []) := by
  refine ⟨?_, ?_, ?_⟩
  · intro h
    simp [snapshot_to_column_lineage, h]
  · intro h
    cases hM : s.is_model with
    | false => simp [snapshot_to_column_lineage, hM]
    | true => simp [snapshot_to_column_lineage, hM, h]
  · intro m hm hc
    cases hM : s.is_model with
    | false => simp [snapshot_to_column_lineage, hM]
    | true =>
      rcases hc with hc | hc <;> simp [snapshot_to_column_lineage, hM, hm, hc]

/-- Concrete instantiation of the C6 theorem: a non-model snapshot, a
model-less snapshot and a zero-column model each yield an empty edge
list without raising. -/
theorem snapshot_to_column_lineage_empty_cases_witness :
    snapshot_to_column_lineage ⟨"a", ⟨none, some "s", "t"⟩, false, none⟩ "p" "ns"
      (.error "import boom") (fun _ => .error "trace boom") = .ok []
    ∧ snapshot_to_column_lineage ⟨"b", ⟨none, some "s", "t"⟩, true, none⟩ "p" "ns"
      (.ok ()) (fun _ => .error "trace boom") = .ok []
    ∧ snapshot_to_column_lineage ⟨"c", ⟨none, some "s", "t"⟩, true, some ⟨some []⟩⟩ "p" "ns"
      (.ok ()) (fun _ => .error "trace boom") = .ok [] :=
  ⟨(snapshot_to_column_lineage_empty_cases ⟨"a", ⟨none, some "s", "t"⟩, false, none⟩ "p" "ns"
      (.error "import boom") (fun _ => .error "trace boom")).1 rfl,
   (snapshot_to_column_lineage_empty_cases ⟨"b", ⟨none, some "s", "t"⟩, true, none⟩ "p" "ns"
      (.ok ()) (fun _ => .error "trace boom")).2.1 rfl,
   (snapshot_to_column_lineage_empty_cases ⟨"c", ⟨none, some "s", "t"⟩, true, some ⟨some []⟩⟩
      "p" "ns" (.ok ()) (fun _ => .error "trace boom")).2.2 ⟨some []⟩ rfl (Or.inr rfl)⟩

/-! ## Theorems: C10 -/

/-- Claim C10: every edge returned by `snapshot_to_column_lineage` has a
non-empty `fromColumns` list, every element of `fromColumns` begins with
`namespace ++ "." ++ parent_name ++ "."`, and the edge's `toColumn` is
`namespace ++ "." ++` the snapshot's dot-joined output table name
`++ "." ++` the name of one of the model's declared output columns. -/
theorem column_lineage_edge_invariants (s : Snapshot) (parent_name ns : String)
    (import_lineage : Except String Unit) (lineage_fn : String → Except String LNode)
    (edges : List ColumnLineage)
    (h : snapshot_to_column_lineage s parent_name ns import_lineage lineage_fn = .ok edges) :
    ∀ cl ∈ edges, cl.fromColumns ≠ []
      ∧ (∀ fc ∈ cl.fromColumns, ∃ rest, fc = ns ++ "." ++ parent_name ++ "." ++ rest)
      ∧ ∃ m cols col, s.model = some m ∧ m.columns_to_types = some cols
          ∧ col ∈ cols.map Prod.fst
          ∧ cl.toColumn = ns ++ "." ++ snapshot_to_table_name s ++ "." ++ col := by
  intro cl hcl
  cases hM : s.is_model with
  | false =>
    simp [snapshot_to_column_lineage, hM] at h
    subst h
    simp at hcl
  | true =>
    cases hmod : s.model with
    | none =>
      simp [snapshot_to_column_lineage, hM, hmod] at h
      subst h
      simp at hcl
    | some m =>
      cases hc : m.columns_to_types with
      | none =>
        simp [snapshot_to_column_lineage, hM, hmod, hc] at h
        subst h
        simp at hcl
      | some cols =>
        by_cases he : cols.isEmpty
        · simp [snapshot_to_column_lineage, hM, hmod, hc, he] at h
          subst h
          simp at hcl
        · cases himp : import_lineage with
          | error e =>
            simp [snapshot_to_column_lineage, hM, hmod, hc, he, himp] at h
            subst h
            simp at hcl
          | ok u =>
            have hloop : edges = column_lineage_loop lineage_fn s parent_name ns
                (cols.map Prod.fst) := by
              have := h
              simp [snapshot_to_column_lineage, hM, hmod, hc, he, himp] at this
              exact this.symm
            rw [hloop] at hcl
            obtain ⟨h1, h2, col, hcol, h3⟩ :=
              mem_column_lineage_loop lineage_fn s parent_name ns (cols.map Prod.fst) cl hcl
            exact ⟨h1, h2, m, cols, col, rfl, hc, hcol,
              by simpa [snapshot_to_table_fqn] using h3⟩

/-- Concrete instantiation of the C10 theorem: on a run producing one
edge, that edge has a non-empty source list, its source is rooted at
`ns.orders.`, and its target is the namespace-qualified output table name
followed by the declared column `total`. -/
theorem column_lineage_edge_invariants_witness :
    let s : Snapshot := ⟨"m", ⟨none, some "sch", "sales"⟩, true, some ⟨some [("total", "int")]⟩⟩
    let cl : ColumnLineage := { fromColumns := ["ns.orders.amount"]
                                toColumn := "ns.sch.sales.total" }
    cl.fromColumns ≠ []
      ∧ (∀ fc ∈ cl.fromColumns, ∃ rest, fc = "ns" ++ "." ++ "orders" ++ "." ++ rest)
      ∧ ∃ m cols col, s.model = some m ∧ m.columns_to_types = some cols
          ∧ col ∈ cols.map Prod.fst
          ∧ cl.toColumn = "ns" ++ "." ++ snapshot_to_table_name s ++ "." ++ col :=
  column_lineage_edge_invariants
    ⟨"m", ⟨none, some "sch", "sales"⟩, true, some ⟨some [("total", "int")]⟩⟩
    "orders" "ns" (.ok ())
    (fun _ => .ok (LNode.mk "orders.amount" (some ⟨"", "", "orders"⟩) []))
    [{ fromColumns := ["ns.orders.amount"], toColumn := "ns.sch.sales.total" }]
    rfl
    { fromColumns := ["ns.orders.amount"], toColumn := "ns.sch.sales.total" }
    (by simp)

/-! ## emitter.py -/

/-- An OpenLineage `RunEvent` as observed by the guarded emission code:
the `eventType` tag, run id and job name it carries. -/
structure RunEvent where
  eventType : String
  runId : String
  jobName : String
deriving Repr, DecidableEq

/-- A `logger.warning("Failed to emit %s event for %s", ...)` record: the
event type and snapshot name that were logged (emitter.py:144). -/
structure LogWarning where
  eventType : String
  jobName : String
deriving Repr, DecidableEq

/-- `OpenLineageEmitter.emit_snapshot_start` (emitter.py:112-144).
`build_event` models everything before the `try` block — the imports,
input/output dataset resolution, facet building and `RunEvent`
construction of lines 119-140, all of which can raise and none of which
is guarded — and `client_emit` models `self.client.emit(event)`, the one
call inside `try`.  A transmission failure is turned into a warning log
carrying the event type and the snapshot name. -/
def emit_snapshot_start (s : Snapshot) (build_event : Except String RunEvent)
    (client_emit : RunEvent → Except String Unit) : Except String (List LogWarning) :=
  match build_event with
  | .error e => .error e
  | .ok event =>
    match client_emit event with
    | .ok _ => .ok []
    | .error _ => .ok [⟨event.eventType, s.name⟩]

/-- `OpenLineageEmitter.emit_snapshot_complete` (emitter.py:146-192):
same guarded structure — construction (lines 156-188) unguarded, only
`self.client.emit(event)` inside `try`. -/
def emit_snapshot_complete (s : Snapshot) (build_event : Except String RunEvent)
    (client_emit : RunEvent → Except String Unit) : Except String (List LogWarning) :=
  match build_event with
  | .error e => .error e
  | .ok event =>
    match client_emit event with
    | .ok _ => .ok []
    | .error _ => .ok [⟨event.eventType, s.name⟩]

/-- `OpenLineageEmitter.emit_snapshot_fail` (emitter.py:194-224): same
guarded structure — construction (lines 201-220) unguarded, only
`self.client.emit(event)` inside `try`. -/
def emit_snapshot_fail (s : Snapshot) (build_event : Except String RunEvent)
    (client_emit : RunEvent → Except String Unit) : Except String (List LogWarning) :=
  match build_event with
  | .error e => .error e
  | .ok event =>
    match client_emit event with
    | .ok _ => .ok []
    | .error _ => .ok [⟨event.eventType, s.name⟩]

/-! ## Theorems: C4 -/

/-- Counterexample to claim C4: an exception raised while constructing
the event (here, a failure of the unguarded dataset-resolution step
before the `try` block) propagates out of `emit_snapshot_start` instead
of being caught, at this explicit concrete input. -/
theorem emit_snapshot_start_construction_error_propagates :
    emit_snapshot_start ⟨"m", ⟨none, some "sch", "t"⟩, true, none⟩
      (.error "dataset resolution failed") (fun _ => .ok ())
      = .error "dataset resolution failed" :=
  rfl

/-- Claim C4 as amended: any exception raised while transmitting the
event (the `client.emit` call) inside `emit_snapshot_start`,
`emit_snapshot_complete` or `emit_snapshot_fail` is caught, logged with
the job name and event type, and never propagated; exceptions raised
while constructing the event occur before the guarded call and propagate
to the caller. -/
theorem emit_snapshot_transmission_errors_caught (s : Snapshot)
    (build_event : Except String RunEvent) (client_emit : RunEvent → Except String Unit)
    (event : RunEvent) (hb : build_event = .ok event) :
    (client_emit event = .ok () →
      emit_snapshot_start s build_event client_emit = .ok []
      ∧ emit_snapshot_complete s build_event client_emit = .ok []
      ∧ emit_snapshot_fail s build_event client_emit = .ok [])
    ∧ (∀ e, client_emit event = .error e →
      emit_snapshot_start s build_event client_emit = .ok [⟨event.eventType, s.name⟩]
      ∧ emit_snapshot_complete s build_event client_emit = .ok [⟨event.eventType, s.name⟩]
      ∧ emit_snapshot_fail s build_event client_emit = .ok [⟨event.eventType, s.name⟩])
    ∧ (∀ e, build_event = .error e →
      emit_snapshot_start s build_event client_emit = .error e) := by
  subst hb
  refine ⟨?_, ?_, ?_⟩
  · intro he
    exact ⟨by simp [emit_snapshot_start, he], by simp [emit_snapshot_complete, he],
      by simp [emit_snapshot_fail, he]⟩
  · intro e he
    exact ⟨by simp [emit_snapshot_start, he], by simp [emit_snapshot_complete, he],
      by simp [emit_snapshot_fail, he]⟩
  · intro e he
    simp at he

/-- Concrete instantiation of the amended C4 theorem: with a connection
error during transmission, each emit method returns normally, logging the
event type and job name. -/
theorem emit_snapshot_transmission_errors_caught_witness :
    emit_snapshot_start ⟨"m", ⟨none, some "sch", "t"⟩, true, none⟩
      (.ok ⟨"START", "rid", "m"⟩) (fun _ => .error "connection refused")
      = .ok [⟨"START", "m"⟩]
    ∧ emit_snapshot_fail ⟨"m", ⟨none, some "sch", "t"⟩, true, none⟩
      (.ok ⟨"FAIL", "rid", "m"⟩) (fun _ => .error "connection refused")
      = .ok [⟨"FAIL", "m"⟩] :=
  ⟨((emit_snapshot_transmission_errors_caught ⟨"m", ⟨none, some "sch", "t"⟩, true, none⟩
      (.ok ⟨"START", "rid", "m"⟩) (fun _ => .error "connection refused")
      ⟨"START", "rid", "m"⟩ rfl).2.1 "connection refused" rfl).1,
   ((emit_snapshot_transmission_errors_caught ⟨"m", ⟨none, some "sch", "t"⟩, true, none⟩
      (.ok ⟨"FAIL", "rid", "m"⟩) (fun _ => .error "connection refused")
      ⟨"FAIL", "rid", "m"⟩ rfl).2.1 "connection refused" rfl).2.2⟩

/-! ## install.py -/

/-- The environment variables read by `install` (install.py:49-60);
`none` models an unset variable. -/
structure Env where
  OPENMETADATA_URL : Option String
  OPENLINEAGE_URL : Option String
  OPENMETADATA_NAMESPACE : Option String
  OPENLINEAGE_NAMESPACE : Option String
  OPENMETADATA_API_KEY : Option String
  OPENLINEAGE_API_KEY : Option String
deriving Repr, DecidableEq

/-- Python truthiness of an optional string: `None` and `""` are falsy. -/
def py_truthy (o : Option String) : Bool :=
  match o with
  | none => false
  | some s => s != ""

/-- Python `a or b` on optional strings: `b` when `a` is falsy. -/
def py_or (a b : Option String) : Option String :=
  if py_truthy a then a else b

/-- `resolved_url` (install.py:49):
`url or os.environ.get("OPENMETADATA_URL") or os.environ.get("OPENLINEAGE_URL")`. -/
def resolve_url (url : Option String) (env : Env) : Option String :=
  py_or url (py_or env.OPENMETADATA_URL env.OPENLINEAGE_URL)

/-- `resolved_namespace` (install.py:50-55): the `namespace` argument
(whose Python default value is the non-empty string `"sqlmesh"`), else
the env vars, else `"sqlmesh"`. -/
def resolve_namespace (ns_arg : String) (env : Env) : String :=
  if ns_arg != "" then ns_arg
  else if py_truthy env.OPENMETADATA_NAMESPACE then env.OPENMETADATA_NAMESPACE.getD ""
  else if py_truthy env.OPENLINEAGE_NAMESPACE then env.OPENLINEAGE_NAMESPACE.getD ""
  else "sqlmesh"

/-- `resolved_api_key` (install.py:56-60). -/
def resolve_api_key (api_key : Option String) (env : Env) : Option String :=
  py_or api_key (py_or env.OPENMETADATA_API_KEY env.OPENLINEAGE_API_KEY)

/-- The `OpenLineageConsole` configuration wired by `set_console`
(install.py:71-79): resolved url, namespace and api key. -/
structure OLConsole where
  url : String
  ns : String
  api_key : Option String
deriving Repr, DecidableEq

/-- The process-wide state touched by `install`: the `_installed` flag and
the console wired by `set_console` (if any). -/
structure InstallState where
  installed : Bool
  console : Option OLConsole
deriving Repr, DecidableEq

/-- The message of the `ValueError` raised by `install` (install.py:63-65). -/
def url_required_message : String :=
  "Open-Metadata URL required. Pass url= or set OPENMETADATA_URL env var."

/-- `install` (install.py:10-81).  Already installed: silent no-op.
Otherwise resolve the configuration, raise `ValueError` when no URL is
resolvable — before any console is created or wired — and on success wire
the console and set the flag.  `ns_arg` is the `namespace` parameter; a
call without an explicit namespace passes its Python default value
`"sqlmesh"`. -/
def install (url : Option String) (ns_arg : String) (api_key : Option String)
    (env : Env) (st : InstallState) : Except String InstallState :=
  if st.installed then
    .ok st
  else
    if !py_truthy (resolve_url url env) then
      .error url_required_message
    else
      .ok { installed := true
            console := some { url := (resolve_url url env).getD ""
                              ns := resolve_namespace ns_arg env
                              api_key := resolve_api_key api_key env } }

/-- `is_installed` (install.py:84-86). -/
def is_installed (st : InstallState) : Bool :=
  st.installed

/-! ## Theorems: C7 -/

/-- Claim C7 fails on the code: calling `install` without an explicit
namespace passes the Python default `"sqlmesh"`, which is truthy, so the
environment variable `OPENMETADATA_NAMESPACE` (here set to `"mysvc"`) is
never consulted — contradicting the function's own docstring ("Falls back
to OPENMETADATA_NAMESPACE or OPENLINEAGE_NAMESPACE env var").  The wired
console's namespace is `"sqlmesh"`, not `"mysvc"`.  The URL and API key,
by contrast, do fall back to the environment here. -/
theorem install_ignores_namespace_env :
    install (some "http://x") "sqlmesh" none
        ⟨none, none, some "mysvc", none, none, none⟩ ⟨false, none⟩
      = .ok ⟨true, some ⟨"http://x", "sqlmesh", none⟩⟩
    ∧ resolve_namespace "sqlmesh" ⟨none, none, some "mysvc", none, none, none⟩ = "sqlmesh"
    ∧ "sqlmesh" ≠ "mysvc"
    ∧ resolve_url none ⟨some "http://env", none, some "mysvc", none, some "k", none⟩
        = some "http://env"
    ∧ resolve_api_key none ⟨some "http://env", none, some "mysvc", none, some "k", none⟩
        = some "k" :=
  ⟨rfl, rfl, by decide, rfl, rfl⟩

/-! ## Theorems: C8 -/

/-- Claim C8: when no URL is resolvable (explicit argument and both env
vars falsy), a fresh `install` raises the `ValueError` synchronously —
the error result carries no wired console — and when a URL is resolvable
it does not raise for that reason. -/
theorem install_url_required (url : Option String) (ns_arg : String)
    (api_key : Option String) (env : Env) (st : InstallState)
    (h : st.installed = false) :
    (py_truthy (resolve_url url env) = false →
      install url ns_arg api_key env st = .error url_required_message)
    ∧ (py_truthy (resolve_url url env) = true →
      ∃ st', install url ns_arg api_key env st = .ok st') := by
  constructor
  · intro hu
    simp [install, h, hu]
  · intro hu
    refine ⟨{ installed := true
              console := some { url := (resolve_url url env).getD ""
                                ns := resolve_namespace ns_arg env
                                api_key := resolve_api_key api_key env } }, ?_⟩
    simp [install, h, hu]

/-- Concrete instantiation of the C8 theorem: with no argument and no env
vars the fresh install errors with the URL-required message; with an
explicit URL it succeeds. -/
theorem install_url_required_witness :
    install none "sqlmesh" none ⟨none, none, none, none, none, none⟩ ⟨false, none⟩
      = .error url_required_message
    ∧ ∃ st', install (some "http://x") "sqlmesh" none
        ⟨none, none, none, none, none, none⟩ ⟨false, none⟩ = .ok st' :=
  ⟨(install_url_required none "sqlmesh" none ⟨none, none, none, none, none, none⟩
      ⟨false, none⟩ rfl).1 rfl,
   (install_url_required (some "http://x") "sqlmesh" none
      ⟨none, none, none, none, none, none⟩ ⟨false, none⟩ rfl).2 rfl⟩

/-! ## Theorems: C9 -/

/-- Claim C9: after any successful call to `install`, the flag is set —
`is_installed` returns `true` — and every subsequent call, with any
arguments whatsoever, returns the state unchanged (no error, no state
change, no second console wired). -/
theorem install_once_idempotent (url : Option String) (ns_arg : String)
    (api_key : Option String) (env : Env) (st st' : InstallState)
    (h : install url ns_arg api_key env st = .ok st') :
    is_installed st' = true
    ∧ ∀ url2 ns2 api_key2 env2, install url2 ns2 api_key2 env2 st' = .ok st' := by
  have hinst : st'.installed = true := by
    unfold install at h
    split at h
    · rename_i hi
      cases h
      exact hi
    · split at h
      · exact absurd h (by simp)
      · cases h
        rfl
  exact ⟨hinst, fun url2 ns2 api_key2 env2 => by simp [install, hinst]⟩

/-- Concrete instantiation of the C9 theorem: after a successful fresh
install, `is_installed` is true and a repeat call with different
arguments is a silent no-op returning the same state. -/
theorem install_once_idempotent_witness :
    is_installed ⟨true, some ⟨"http://x", "sqlmesh", none⟩⟩ = true
    ∧ install (some "http://other") "other_ns" (some "key2")
        ⟨none, none, some "mysvc", none, none, none⟩
        ⟨true, some ⟨"http://x", "sqlmesh", none⟩⟩
      = .ok ⟨true, some ⟨"http://x", "sqlmesh", none⟩⟩ :=
  ⟨(install_once_idempotent (some "http://x") "sqlmesh" none
      ⟨none, none, none, none, none, none⟩ ⟨false, none⟩
      ⟨true, some ⟨"http://x", "sqlmesh", none⟩⟩ rfl).1,
   (install_once_idempotent (some "http://x") "sqlmesh" none
      ⟨none, none, none, none, none, none⟩ ⟨false, none⟩
      ⟨true, some ⟨"http://x", "sqlmesh", none⟩⟩ rfl).2
      (some "http://other") "other_ns" (some "key2")
      ⟨none, none, some "mysvc", none, none, none⟩⟩

/-! ## Run correlator (console), modelled from the spec -/

/-- A lineage event emitted by the run correlator, as far as the
correlation claims observe it: its kind, run id, job name, and for FAIL
the error message. -/
inductive OLEvent where
  | start (run_id job_name : String)
  | complete (run_id job_name : String)
  | fail (run_id job_name error_message : String)
deriving Repr, DecidableEq

/-- Lookup in the active-run table (job name to run id). -/
def lookup_run : List (String × String) → String → Option String
  | [], _ => none
  | kv :: rest, n => if kv.1 = n then some kv.2 else lookup_run rest n

/-- Removal of a job's entry from the active-run table. -/
def remove_run : List (String × String) → String → List (String × String)
  | [], _ => []
  | kv :: rest, n => if kv.1 = n then remove_run rest n else kv :: remove_run rest n

/-- The error message summarizing the audit failure count in the FAIL
event emitted on a failed-audit progress notification. -/
def audit_fail_message (n : Nat) : String :=
  "audit failures: " ++ toString n

/-- Modelled from the spec: `OpenLineageConsole.update_snapshot_evaluation_progress`
lives in `sqlmesh_openlineage/console.py`, which is not among the available
sources (only its tests and callers are).  Following the specification of the
run correlator's progress handling: look up the active run for the job
identity — if absent, emit no correlated event and leave the table unchanged;
if `auditsFailed > 0` emit exactly one FAIL event whose error message
summarizes the audit failure count and remove the run from the table;
otherwise emit exactly one COMPLETE event and remove the run.  The result is
the list of emitted events and the new active-run table. -/
def update_snapshot_evaluation_progress (active_runs : List (String × String))
    (job_name : String) (num_audits_failed : Nat) :
    List OLEvent × List (String × String) :=
  match lookup_run active_runs job_name with
  | none => ([], active_runs)
  | some run_id =>
    if num_audits_failed > 0 then
      ([.fail run_id job_name (audit_fail_message num_audits_failed)],
       remove_run active_runs job_name)
    else
      ([.complete run_id job_name], remove_run active_runs job_name)

/-- After removing a job from the active-run table it has no run. -/
theorem lookup_remove_run (runs : List (String × String)) (n : String) :
    lookup_run (remove_run runs n) n = none := by
  induction runs with
  | nil => rfl
  | cons kv rest ih =>
    by_cases hk : kv.1 = n
    · simp [remove_run, hk, ih]
    · simp [remove_run, lookup_run, hk, ih]

/-! ## Theorems: C5 -/

/-- Claim C5 (against the spec-modelled correlator): for a progress
notification on a job with an active run, `auditsFailed > 0` emits
exactly one FAIL event carrying a message summarizing the audit failure
count and removes the job from the active-run table, while
`auditsFailed = 0` emits exactly one COMPLETE event and removes the job
from the active-run table. -/
theorem update_snapshot_progress_spec (runs : List (String × String))
    (job_name run_id : String) (num_audits_failed : Nat)
    (h : lookup_run runs job_name = some run_id) :
    (num_audits_failed > 0 →
      (update_snapshot_evaluation_progress runs job_name num_audits_failed).1
          = [.fail run_id job_name (audit_fail_message num_audits_failed)]
      ∧ lookup_run
          (update_snapshot_evaluation_progress runs job_name num_audits_failed).2
          job_name = none)
    ∧ (num_audits_failed = 0 →
      (update_snapshot_evaluation_progress runs job_name num_audits_failed).1
          = [.complete run_id job_name]
      ∧ lookup_run
          (update_snapshot_evaluation_progress runs job_name num_audits_failed).2
          job_name = none) := by
  constructor
  · intro hf
    constructor
    · simp [update_snapshot_evaluation_progress, h, hf]
    · simp [update_snapshot_evaluation_progress, h, hf, lookup_remove_run]
  · intro hf
    subst hf
    constructor
    · simp [update_snapshot_evaluation_progress, h]
    · simp [update_snapshot_evaluation_progress, h, lookup_remove_run]

/-- Concrete instantiation of the C5 theorem: with an active run
`("sales", "rid")`, two failed audits emit one FAIL with the
failure-count message and clear the run; zero failed audits emit one
COMPLETE and clear the run. -/
theorem update_snapshot_progress_spec_witness :
    (update_snapshot_evaluation_progress [("sales", "rid")] "sales" 2).1
        = [.fail "rid" "sales" (audit_fail_message 2)]
    ∧ lookup_run (update_snapshot_evaluation_progress [("sales", "rid")] "sales" 2).2
        "sales" = none
    ∧ (update_snapshot_evaluation_progress [("sales", "rid")] "sales" 0).1
        = [.complete "rid" "sales"]
    ∧ lookup_run (update_snapshot_evaluation_progress [("sales", "rid")] "sales" 0).2
        "sales" = none :=
  ⟨((update_snapshot_progress_spec [("sales", "rid")] "sales" "rid" 2 rfl).1 (by decide)).1,
   ((update_snapshot_progress_spec [("sales", "rid")] "sales" "rid" 2 rfl).1 (by decide)).2,
   ((update_snapshot_progress_spec [("sales", "rid")] "sales" "rid" 0 rfl).2 rfl).1,
   ((update_snapshot_progress_spec [("sales", "rid")] "sales" "rid" 0 rfl).2 rfl).2⟩
